import Mathlib

/-!
Shallow embedding of the `enquesefue` expense-tracker backend (FastAPI +
SQLAlchemy), covering the ingestion / duplicate-detection pipeline
(`app/services/expense_service.py`), the AI extraction adapter
(`app/services/ai_service.py`), the WhatsApp conversational dispatcher and
link-token issuer (`app/routers/whatsapp.py`), and the PDF batch upload
(`app/routers/upload.py`).

Modelling conventions:
* SQLAlchemy rows become Lean structures; the database session becomes an
  explicit `Db` record of lists, passed and returned functionally.  Primary
  keys are modelled with a single `next_id` autoincrement counter.
* `datetime` values become `Int` (seconds on an absolute axis);
  `timedelta(days=1)` is `86400`, `timedelta(minutes=10)` is `600`.
* `Decimal` money amounts become `Int` (the code only ever compares amounts
  for equality and adds them, so the scale is irrelevant).
* Python exceptions become `Except String`; in particular SQLAlchemy
  `Result.scalar_one_or_none`, which raises `MultipleResultsFound` when the
  result has more than one row, is modelled by `scalar_one_or_none` below.
* External capabilities (OpenAI extraction, Whisper, Twilio, SHA-256,
  bcrypt) are out of scope per the spec; their *results* enter the model as
  explicit parameters (`LinkedEffects`), and the extraction adapters'
  field-level post-processing, which is repository code, is embedded
  faithfully (`parse_expense_from_text`).
-/

namespace Enquesefue

/-- Python `str.lower()` over the underlying characters (kernel-computable
model of lowercasing; the inputs involved are ASCII). -/
def py_lower (s : String) : String :=
  String.mk (s.data.map Char.toLower)

/-- Python `str.strip()`: drop whitespace from both ends. -/
def py_strip (s : String) : String :=
  String.mk (((s.data.dropWhile Char.isWhitespace).reverse.dropWhile
    Char.isWhitespace).reverse)

/-- Python `s.startswith(pre)`. -/
def py_startswith (s pre : String) : Bool :=
  pre.data.isPrefixOf s.data

/-- Python truthiness of an optional string (`if file_hash:` /
`if media_url:`): `None` and the empty string are falsy. -/
def py_truthy_str (s : Option String) : Bool :=
  match s with
  | none => false
  | some s => !(s == "")

/-- Model of SQLAlchemy `Result.scalar_one_or_none()`: `none` on zero rows,
the row on exactly one, and a raised `MultipleResultsFound` otherwise. -/
def scalar_one_or_none {α : Type} (rows : List α) : Except String (Option α) :=
  match rows with
  | [] => .ok none
  | [a] => .ok (some a)
  | _ => .error "MultipleResultsFound"

/-- One day, in the `Int` time unit (seconds): `timedelta(days=1)`. -/
def one_day : Int := 86400

/-- Link-PIN lifetime: `timedelta(minutes=10)` in seconds. -/
def link_pin_ttl : Int := 600

/-- Row of `users` (`app/models/user.py`).  `password_hash` is omitted:
bcrypt hashing is an external capability (spec §1) and no embedded code
path reads it. -/
structure User where
  id : Nat
  email : String
  name : String
  currency : String
  whatsapp_phone : Option String
  deriving DecidableEq, Repr

/-- Row of `categories` (`app/models/category.py`); `user_id = none` marks
a global category shared by all accounts. -/
structure Category where
  id : Nat
  name : String
  emoji : String
  user_id : Option Nat
  deriving DecidableEq, Repr

/-- Row of `expenses` as the service layer (`app/services/expense_service.py`)
reads and writes it.  Note: the ORM model `app/models/expense.py` declares
every field below EXCEPT `file_hash`.  That discrepancy is load-bearing: at
runtime `Expense(..., file_hash=...)` raises `TypeError` on every save and
`Expense.file_hash` raises `AttributeError` in the hash lookup.  Those real
error paths are modelled by `expense_class_attr`, `find_duplicate_by_hash_py`,
`save_expense_py` and `upload_pdf_process_py` below (claims C1, C3, C5,
C10); this field-carrying structure supports the remaining functions, whose
claims are insensitive to the constructor failure. -/
structure Expense where
  id : Nat
  user_id : Nat
  amount : Int
  currency : String
  description : String
  category_id : Option Nat
  date : Int
  source : String
  raw_input : Option String
  file_hash : Option String
  deriving DecidableEq, Repr

/-- Row of `whatsapp_link_tokens` (`app/models/whatsapp.py`). -/
structure WhatsAppLinkToken where
  id : Nat
  user_id : Nat
  token : String
  expires_at : Int
  used : Bool
  deriving DecidableEq, Repr

/-- Candidate expense returned by the extractors
(`app/schemas/expense.py`, `ExpenseParsed`). -/
structure ExpenseParsed where
  amount : Int
  currency : String
  description : String
  category_name : String
  date : Option Int
  deriving DecidableEq, Repr

/-- The transactional store: the four tables plus the autoincrement
counter. -/
structure Db where
  users : List User
  categories : List Category
  expenses : List Expense
  tokens : List WhatsAppLinkToken
  next_id : Nat
  deriving DecidableEq, Repr

/-! ### app/models/expense.py vs app/services/expense_service.py (claim C1)

SQLAlchemy's declarative constructor accepts exactly the mapped attributes
(columns and relationships) as keyword arguments and raises `TypeError` for
any other name; attribute access on the class (`Expense.file_hash` in a
`WHERE` clause) raises `AttributeError` for an undeclared name. -/

/-- Mapped attributes actually declared on the ORM model `Expense`
(`app/models/expense.py` lines 13-27): its columns plus the two
relationships. -/
def expense_model_mapped_attrs : List String :=
  ["id", "user_id", "amount", "currency", "description", "category_id",
   "date", "source", "raw_input", "created_at", "user", "category"]

/-- Keyword arguments passed to `Expense(...)` by `save_expense`
(`app/services/expense_service.py` lines 104-114). -/
def save_expense_ctor_kwargs : List String :=
  ["user_id", "amount", "currency", "description", "category_id",
   "date", "source", "raw_input", "file_hash"]

/-- SQLAlchemy declarative constructor check: every keyword argument must
name a mapped attribute, otherwise `TypeError` is raised. -/
def declarative_ctor_accepts (attrs kwargs : List String) : Bool :=
  kwargs.all (fun k => attrs.contains k)

/-! ### app/services/expense_service.py -/

/-- The lookup `find_duplicate_by_hash` intends (expense_service.py lines
37-45): the first stored expense of the account whose `file_hash` equals
the given digest (`LIMIT 1`; SQL `NULL == x` is never true, hence
`some file_hash`).  The program as written never reaches this query — the
WHERE clause evaluates the undeclared class attribute `Expense.file_hash`
and raises first; see `find_duplicate_by_hash_py`. -/
def find_duplicate_by_hash (file_hash : String) (user_id : Nat) (db : Db) :
    Option Expense :=
  (db.expenses.filter
    (fun e => e.user_id == user_id && e.file_hash == some file_hash)).head?

/-- Boolean row predicate of the fingerprint query in
`find_duplicate_by_fingerprint`: same owner, same amount, same currency,
event date within the symmetric one-day window around `expense_date`. -/
def fp_row_match (parsed : ExpenseParsed) (user_id : Nat) (now : Int)
    (e : Expense) : Bool :=
  e.user_id == user_id && e.amount == parsed.amount &&
  e.currency == parsed.currency &&
  decide (parsed.date.getD now - one_day ≤ e.date) &&
  decide (e.date ≤ parsed.date.getD now + one_day)

/-- Row with the maximal `date` (first such row on ties), modelling
`ORDER BY date DESC LIMIT 1`. -/
def max_by_date : List Expense → Option Expense
  | [] => none
  | e :: rest =>
    match max_by_date rest with
    | none => some e
    | some b => if e.date < b.date then some b else some e

/-- Embeds `find_duplicate_by_fingerprint` (expense_service.py lines
48-68): `expense_date = parsed.date or datetime.now()`, then the matching
row most recent by date, if any. -/
def find_duplicate_by_fingerprint (parsed : ExpenseParsed) (user_id : Nat)
    (db : Db) (now : Int) : Option Expense :=
  max_by_date (db.expenses.filter (fp_row_match parsed user_id now))

/-- Boolean row predicate of the category lookup in
`get_or_create_category`: name equal and owner either global or the given
account. -/
def cat_row_match (name : String) (user_id : Nat) (c : Category) : Bool :=
  c.name == name && (c.user_id == none || c.user_id == some user_id)

/-- Embeds `get_or_create_category` (expense_service.py lines 71-83):
`scalar_one_or_none` over the matching rows (raising on more than one);
when none matches, a new account-owned row with the default glyph is
created and persisted. -/
def get_or_create_category (name : String) (user_id : Nat) (db : Db) :
    Except String (Category × Db) :=
  match scalar_one_or_none (db.categories.filter (cat_row_match name user_id)) with
  | .error e => .error e
  | .ok (some c) => .ok (c, db)
  | .ok none =>
    let c : Category :=
      { id := db.next_id, name := name, emoji := "💰", user_id := some user_id }
    .ok (c, { db with categories := db.categories ++ [c],
                      next_id := db.next_id + 1 })

/-- Duplicate-search step of `save_expense` (expense_service.py lines
96-100): hash strategy first when a truthy `file_hash` is supplied, then
the fingerprint strategy only when the hash lookup found nothing. -/
def find_duplicate (parsed : ExpenseParsed) (user_id : Nat) (db : Db)
    (file_hash : Option String) (now : Int) : Option Expense :=
  let byHash : Option Expense :=
    if py_truthy_str file_hash then
      find_duplicate_by_hash (file_hash.getD "") user_id db
    else none
  match byHash with
  | some d => some d
  | none => find_duplicate_by_fingerprint parsed user_id db now

/-- The write logic `save_expense` intends (expense_service.py lines
86-118): duplicate screening against the pre-write store, category
resolution, then the insert (`date or now`, `currency or user.currency`),
returning the new row together with the duplicate found (if any).  The
program as written raises before any row is inserted (the `Expense`
constructor rejects the `file_hash` kwarg); that real behaviour is
`save_expense_py` below.  This intended version is what the dispatcher
paths call in the model, for the claims insensitive to that failure. -/
def save_expense (parsed : ExpenseParsed) (user : User)
    (source raw_input : String) (db : Db) (file_hash : Option String)
    (now : Int) : Except String (Expense × Option Expense × Db) :=
  let duplicate := find_duplicate parsed user.id db file_hash now
  match get_or_create_category parsed.category_name user.id db with
  | .error e => .error e
  | .ok (category, db1) =>
    let expense : Expense :=
      { id := db1.next_id
        user_id := user.id
        amount := parsed.amount
        currency := if parsed.currency == "" then user.currency else parsed.currency
        description := parsed.description
        category_id := some category.id
        date := parsed.date.getD now
        source := source
        raw_input := some raw_input
        file_hash := file_hash }
    .ok (expense, duplicate,
         { db1 with expenses := db1.expenses ++ [expense],
                    next_id := db1.next_id + 1 })

/-- Python attribute access on the mapped class: evaluating
`Expense.file_hash` while building the WHERE clause checks the declared
mapped attributes and raises `AttributeError` for an undeclared name. -/
def expense_class_attr (attr : String) : Except String String :=
  if expense_model_mapped_attrs.contains attr then .ok attr
  else .error ("AttributeError: " ++ attr)

/-- Embeds `find_duplicate_by_hash` as the program actually executes it:
the query builder first evaluates the class attribute `Expense.file_hash`
(expense_service.py line 41), which raises `AttributeError` because the ORM
model declares no such attribute; only past that check would the intended
lookup run. -/
def find_duplicate_by_hash_py (file_hash : String) (user_id : Nat)
    (db : Db) : Except String (Option Expense) :=
  match expense_class_attr "file_hash" with
  | .error e => .error e
  | .ok _ => .ok (find_duplicate_by_hash file_hash user_id db)

/-- Embeds `save_expense` as the program actually executes it (lines
86-118): the duplicate screening goes through the real hash lookup (which
raises whenever a truthy hash is supplied), and the `Expense(...)` call
passes its kwargs through the declarative constructor's mapped-attribute
check, which rejects `file_hash` and raises `TypeError` on every call —
before any row is added or committed. -/
def save_expense_py (parsed : ExpenseParsed) (user : User)
    (source raw_input : String) (db : Db) (file_hash : Option String)
    (now : Int) : Except String (Expense × Option Expense × Db) :=
  match (if py_truthy_str file_hash
         then find_duplicate_by_hash_py (file_hash.getD "") user.id db
         else .ok none) with
  | .error e => .error e
  | .ok dup1 =>
    let duplicate : Option Expense :=
      match dup1 with
      | some d => some d
      | none => find_duplicate_by_fingerprint parsed user.id db now
    match get_or_create_category parsed.category_name user.id db with
    | .error e => .error e
    | .ok (category, db1) =>
      if declarative_ctor_accepts expense_model_mapped_attrs
          save_expense_ctor_kwargs then
        let expense : Expense :=
          { id := db1.next_id
            user_id := user.id
            amount := parsed.amount
            currency := if parsed.currency == "" then user.currency else parsed.currency
            description := parsed.description
            category_id := some category.id
            date := parsed.date.getD now
            source := source
            raw_input := some raw_input
            file_hash := file_hash }
        .ok (expense, duplicate,
             { db1 with expenses := db1.expenses ++ [expense],
                        next_id := db1.next_id + 1 })
      else
        .error "TypeError: file_hash is an invalid keyword argument for Expense"

/-! ### app/services/ai_service.py -/

/-- The fixed closed category catalog (`ai_service.py` lines 17-21). -/
def CATEGORIES : List String :=
  ["Alimentación", "Transporte", "Hogar", "Entretenimiento",
   "Ropa", "Salud", "Tecnología", "Educación", "Trabajo",
   "Servicios", "Regalos", "Otros"]

/-- The loosely-typed JSON object the extraction model returns, after
`json.loads`: every field optional, with an optional error marker.
`date` is the already-parsed ISO date; an absent or unparseable date both
collapse to `none` (the code maps an unparseable one to `today`, and
`date or today` then makes the two cases coincide). -/
structure AiData where
  error : Option String
  amount : Option Int
  currency : Option String
  description : Option String
  category_name : Option String
  date : Option Int
  deriving DecidableEq, Repr

/-- Embeds the response post-processing of `parse_expense_from_text`
(`ai_service.py` lines 54-77): an `error` key yields `None`; a missing
`amount` or `description` raises `KeyError`, caught into `None`;
`currency` defaults to `"MXN"`, `category_name` to `"Otros"`, and
`date or today` leaves the date never absent. -/
def parse_expense_from_text (data : AiData) (today : Int) :
    Option ExpenseParsed :=
  if data.error.isSome then none
  else
    match data.amount, data.description with
    | some amt, some desc =>
      some { amount := amt
             currency := data.currency.getD "MXN"
             description := desc
             category_name := data.category_name.getD "Otros"
             date := some (data.date.getD today) }
    | _, _ => none

/-! ### app/routers/upload.py -/

/-- The loop `upload_pdf` intends (`upload.py` lines 116-131): each
candidate saved (committed) in turn, so the duplicate screening for a
candidate sees the rows written for the earlier candidates of the same
document; returns the final store, `created` (= number of saved rows) and
`duplicates_count`.  The loop the program actually runs is
`upload_pdf_process_py` below. -/
def upload_pdf_process (user : User) (raw_input : String) (now : Int) :
    List ExpenseParsed → Db → Except String (Db × Nat × Nat)
  | [], db => .ok (db, 0, 0)
  | parsed :: rest, db =>
    match save_expense parsed user "pdf" raw_input db none now with
    | .error e => .error e
    | .ok (_, dup, db1) =>
      match upload_pdf_process user raw_input now rest db1 with
      | .error e => .error e
      | .ok (db2, created, dups) =>
        .ok (db2, created + 1, dups + (if dup.isSome then 1 else 0))

/-- Embeds the `upload_pdf` loop as the program actually executes it: the
same sequential structure over `save_expense_py`, whose `Expense`
constructor raises `TypeError` on every call. -/
def upload_pdf_process_py (user : User) (raw_input : String) (now : Int) :
    List ExpenseParsed → Db → Except String (Db × Nat × Nat)
  | [], db => .ok (db, 0, 0)
  | parsed :: rest, db =>
    match save_expense_py parsed user "pdf" raw_input db none now with
    | .error e => .error e
    | .ok (_, dup, db1) =>
      match upload_pdf_process_py user raw_input now rest db1 with
      | .error e => .error e
      | .ok (db2, created, dups) =>
        .ok (db2, created + 1, dups + (if dup.isSome then 1 else 0))

/-! ### app/routers/whatsapp.py — reply texts
(`app/services/whatsapp_service.py`).  The spec fixes the *situations*
that require a reply; exact wording is presentation.  Replies whose text a
claim depends on (`format_pin_expired`, `format_link_ok`) carry the exact
source strings; summary formatting (float rendering, date rendering) is
presentation-level and rendered via `toString`. -/

/-- Reply for an invalid or expired PIN (`format_pin_expired`). -/
def format_pin_expired : String :=
  "❌ PIN inválido o expirado.\nGenera uno nuevo en la app: *Configuración → Vincular WhatsApp*."

/-- Reply after a successful link (`format_link_ok`). -/
def format_link_ok (name : String) : String :=
  "✅ ¡Listo! Tu número quedó vinculado a la cuenta de *" ++ name ++
  "*.\nYa puedes registrar gastos aquí."

/-- Onboarding reply for an unrecognised message from an unlinked number
(`format_not_linked`, text abridged to its first line). -/
def format_not_linked : String :=
  "👋 Hola, no reconozco tu número."

/-- Reply when the registro command is malformed. -/
def format_bad_registro : String :=
  "⚠️ Formato incorrecto. Usa: registro tu@email.com contraseña TuNombre"

/-- Reply when the registro email already has an account. -/
def format_email_taken : String :=
  "❌ Ese email ya tiene cuenta.\nVincula tu número desde la app: *Configuración → Vincular WhatsApp*."

/-- Welcome reply after in-chat self-registration (carries the explicit
plaintext-credentials warning). -/
def format_welcome (name : String) : String :=
  "✅ ¡Cuenta creada y número vinculado! Bienvenido, *" ++ name ++
  "*.\n⚠️ Nota: evita enviar contraseñas por WhatsApp en el futuro."

/-- Help reply (`format_help`, abridged header). -/
def format_help : String :=
  "🤖 *enquesefue — comandos disponibles*"

/-- Reply when free text yields no recognisable expense
(`format_expense_error`). -/
def format_expense_error (detail : String) : String :=
  "❌ No pude identificar un gasto en tu mensaje." ++
  (if detail == "" then "" else "\n" ++ detail)

/-- Confirmation for a saved expense (`format_expense_ok`; amount/date
rendering is presentation, the duplicate warning line is appended exactly
when a duplicate was flagged). -/
def format_expense_ok (e : Expense) (dup : Option Expense) : String :=
  "✅ *Gasto guardado*\n📝 " ++ e.description ++ "\n💵 " ++
  toString e.amount ++ " " ++ e.currency ++
  (if dup.isSome then "\n⚠️ Posible duplicado de un gasto similar." else "")

/-- Result line for a processed bank statement (`format_pdf_ok`). -/
def format_pdf_ok (created dups : Nat) (total : Int) (currency : String) :
    String :=
  "📄 *Estado de cuenta procesado*\n✅ " ++ toString created ++
  " transacciones guardadas" ++
  (if dups ≠ 0 then "\n⚠️ " ++ toString dups ++ " posibles duplicados" else "") ++
  "\n💵 Total: " ++ toString total ++ " " ++ currency

/-- Reply when no ticket could be read from an image. -/
def format_no_ticket : String :=
  "❌ No pude leer el ticket. Asegúrate de que la imagen sea clara y muestre el monto total."

/-- Reply when audio transcription failed. -/
def format_no_transcription : String :=
  "❌ No pude transcribir el audio. Intenta de nuevo con más claridad."

/-- Reply when a PDF held no transactions. -/
def format_no_pdf_transactions : String :=
  "❌ No encontré transacciones en el PDF. ¿Es un estado de cuenta bancario?"

/-- Reply for an unsupported media type. -/
def format_unsupported_media : String :=
  "❌ Tipo de archivo no soportado. Puedo procesar imágenes, notas de voz y PDFs."

/-- The generic apologetic reply produced by the dispatcher's top-level
exception handler (`whatsapp.py` line 101). -/
def generic_error_reply : String :=
  "❌ Ocurrió un error procesando tu mensaje. Intenta de nuevo."

/-! ### app/routers/whatsapp.py — unlinked path and link-token issuer -/

/-- The PIN test of `_handle_unlinked` (`whatsapp.py` line 111):
`body.isdigit() and len(body) == 6` (digits are ASCII here). -/
def is_six_digit_pin (body : String) : Bool :=
  body.toList.all Char.isDigit && body.length == 6

/-- The redemption predicate of the token query (`whatsapp.py` lines
113-121): same code, unused, not yet expired (`expires_at > now`). -/
def token_matches (code : String) (now : Int) (t : WhatsAppLinkToken) : Bool :=
  t.token == code && t.used == false && decide (now < t.expires_at)

/-- Python `str.split(maxsplit=n)` on whitespace, over a character list:
leading whitespace is dropped, up to `n` splits are made, and the
remainder (kept verbatim after the whitespace run following the last
token) becomes the final element when non-empty. -/
def py_split_ws_max : Nat → List Char → List (List Char)
  | _, [] => []
  | 0, cs =>
    match cs.dropWhile Char.isWhitespace with
    | [] => []
    | rest => [rest]
  | n + 1, cs =>
    match cs.dropWhile Char.isWhitespace with
    | [] => []
    | rest =>
      rest.takeWhile (fun c => !c.isWhitespace) ::
        py_split_ws_max n (rest.dropWhile (fun c => !c.isWhitespace))

/-- Python `body.split(maxsplit=3)` (`whatsapp.py` line 136). -/
def py_split_max3 (s : String) : List String :=
  (py_split_ws_max 3 s.toList).map (fun l => String.mk l)

/-- Embeds `_handle_unlinked` (`whatsapp.py` lines 107-164).  Option A: a
six-digit body attempts token redemption — on a unique live match the chat
identity is bound to the token's account and the token marked used; zero
matches reply with the invalid/expired-PIN text and change nothing; more
than one match raises (`scalar_one_or_none`).  Option B: the `registro`
command self-registers.  Anything else replies with the onboarding text. -/
def handle_unlinked (phone body : String) (db : Db) (now : Int) :
    Except String (String × Db) :=
  if is_six_digit_pin body then
    match scalar_one_or_none (db.tokens.filter (token_matches body now)) with
    | .error e => .error e
    | .ok none => .ok (format_pin_expired, db)
    | .ok (some tk) =>
      match db.users.find? (fun u => u.id == tk.user_id) with
      | none => .error "AttributeError: token has no user row"
      | some u =>
        .ok (format_link_ok u.name,
             { db with
               users := db.users.map (fun v =>
                 if v.id == tk.user_id then { v with whatsapp_phone := some phone }
                 else v),
               tokens := db.tokens.map (fun s =>
                 if s.id == tk.id then { s with used := true } else s) })
  else if py_startswith (py_lower body) "registro " then
    match py_split_max3 body with
    | [_, email, _password, name] =>
      match scalar_one_or_none (db.users.filter (fun u => u.email == email)) with
      | .error e => .error e
      | .ok (some _) => .ok (format_email_taken, db)
      | .ok none =>
        let nu : User :=
          { id := db.next_id, email := email, name := name,
            currency := "MXN", whatsapp_phone := some phone }
        .ok (format_welcome name,
             { db with users := db.users ++ [nu], next_id := db.next_id + 1 })
    | _ => .ok (format_bad_registro, db)
  else
    .ok (format_not_linked, db)

/-- Embeds `generate_link_pin` (`whatsapp.py` lines 291-313): every prior
unused token of the account is marked used, then the fresh six-digit token
(expiring ten minutes from now) is inserted.  The randomly drawn PIN enters
as the `pin` parameter. -/
def generate_link_pin (user_id : Nat) (pin : String) (now : Int) (db : Db) :
    String × Db :=
  let invalidated := db.tokens.map (fun t =>
    if t.user_id == user_id && t.used == false then { t with used := true } else t)
  let fresh : WhatsAppLinkToken :=
    { id := db.next_id, user_id := user_id, token := pin,
      expires_at := now + link_pin_ttl, used := false }
  (pin, { db with tokens := invalidated ++ [fresh], next_id := db.next_id + 1 })

/-- The fresh token inserted by `generate_link_pin`. -/
def fresh_token (user_id : Nat) (pin : String) (now : Int) (db : Db) :
    WhatsAppLinkToken :=
  { id := db.next_id, user_id := user_id, token := pin,
    expires_at := now + link_pin_ttl, used := false }

/-! ### app/routers/whatsapp.py — linked path -/

/-- Results of the external calls a linked-path message may trigger.  The
extraction adapters catch their own failures and return `None`/`[]`
(ai/vision/audio/pdf services), so they enter as totals; `download_media`
can raise a transport error, so it enters as `Except`; the SHA-256 digest
primitive enters as a function. -/
structure LinkedEffects where
  download_media : Except String String
  analyze_receipt : Option ExpenseParsed
  transcribe : Option String
  parse_text : String → Option ExpenseParsed
  parse_pdf : List ExpenseParsed
  sha256 : String → String

/-- The WhatsApp PDF loop (`whatsapp.py` lines 266-274): running total of
saved amounts, last-written currency (initially "MXN"), duplicate count. -/
def wa_pdf_loop (user : User) (now : Int) :
    List ExpenseParsed → Db → Int → String → Nat →
    Except String (Db × Int × String × Nat)
  | [], db, total, currency, dups => .ok (db, total, currency, dups)
  | parsed :: rest, db, total, _currency, dups =>
    match save_expense parsed user "pdf" "pdf" db none now with
    | .error e => .error e
    | .ok (e, dup, db1) =>
      wa_pdf_loop user now rest db1 (total + e.amount) e.currency
        (dups + (if dup.isSome then 1 else 0))

/-- Embeds `_handle_media` (`whatsapp.py` lines 218-278): download, then
branch on the declared content type — image (extraction, content hash,
save), audio (transcription, text extraction, save, no hash), PDF (batch
loop), otherwise the unsupported-media reply. -/
def handle_media (user : User) (content_type _caption : String)
    (fx : LinkedEffects) (db : Db) (now : Int) :
    Except String (String × Db) :=
  match fx.download_media with
  | .error e => .error e
  | .ok media_bytes =>
    if py_startswith content_type "image/" then
      match fx.analyze_receipt with
      | none => .ok (format_no_ticket, db)
      | some parsed =>
        match save_expense parsed user "image" "imagen" db
          (some (fx.sha256 media_bytes)) now with
        | .error e => .error e
        | .ok (e, dup, db1) => .ok (format_expense_ok e dup, db1)
    else if py_startswith content_type "audio/" then
      match fx.transcribe with
      | none => .ok (format_no_transcription, db)
      | some tr =>
        match fx.parse_text tr with
        | none => .ok (format_expense_error tr, db)
        | some parsed =>
          match save_expense parsed user "audio" tr db none now with
          | .error e => .error e
          | .ok (e, dup, db1) =>
            .ok ("🎤 " ++ tr ++ "\n\n" ++ format_expense_ok e dup, db1)
    else if content_type == "application/pdf" then
      match fx.parse_pdf with
      | [] => .ok (format_no_pdf_transactions, db)
      | transactions =>
        match wa_pdf_loop user now transactions db 0 "MXN" 0 with
        | .error e => .error e
        | .ok (db1, total, currency, dups) =>
          .ok (format_pdf_ok transactions.length dups total currency, db1)
    else
      .ok (format_unsupported_media, db)

/-- Period totals of `_summary_for_period` (expense_service.py lines
177-183), for the reporting commands. -/
def period_total (user_id : Nat) (start stop : Int) (db : Db) : Int :=
  ((db.expenses.filter (fun e =>
    e.user_id == user_id && decide (start ≤ e.date) && decide (e.date ≤ stop))).map
    (fun e => e.amount)).sum

/-- Embeds `_handle_linked` (`whatsapp.py` lines 167-215): reporting
commands first, then media, then free text through the text extractor, an
empty body replying with help.  `month_start` stands for the calendar
computation `now.replace(day=1, ...)`, which has no Int-axis analogue. -/
def handle_linked (user : User) (body : String) (num_media : Nat)
    (media_url media_content_type : Option String) (fx : LinkedEffects)
    (db : Db) (now month_start : Int) : Except String (String × Db) :=
  let cmd := py_strip (py_lower body)
  if cmd == "resumen" then
    .ok ("📊 *Resumen* 💵 Total: " ++ toString (period_total user.id month_start now db), db)
  else if cmd == "semana" then
    .ok ("📊 *Últimos 7 días* 💵 Total: " ++
         toString (period_total user.id (now - 7 * one_day) now db), db)
  else if cmd == "últimos" || cmd == "ultimos" then
    .ok ("📋 *Últimos gastos*", db)
  else if cmd == "ayuda" || cmd == "help" then
    .ok (format_help, db)
  else if decide (num_media > 0) && py_truthy_str media_url &&
          py_truthy_str media_content_type then
    handle_media user (media_content_type.getD "") body fx db now
  else if body == "" then
    .ok (format_help, db)
  else
    match fx.parse_text body with
    | none => .ok (format_expense_error "", db)
    | some parsed =>
      match save_expense parsed user "text" body db none now with
      | .error e => .error e
      | .ok (e, dup, db1) => .ok (format_expense_ok e dup, db1)

/-- Embeds the linked branch of `whatsapp_webhook` (`whatsapp.py` lines
96-104): `_handle_linked` inside `try`, any raised exception replaced by
the generic apologetic reply (the session's uncommitted work is
discarded), and a reply always sent. -/
def whatsapp_webhook_linked (user : User) (body : String) (num_media : Nat)
    (media_url media_content_type : Option String) (fx : LinkedEffects)
    (db : Db) (now month_start : Int) : String × Db :=
  match handle_linked user body num_media media_url media_content_type fx
    db now month_start with
  | .ok (reply, db1) => (reply, db1)
  | .error _ => (generic_error_reply, db)

/-! ## Helper lemmas -/

theorem max_by_date_eq_none_iff (l : List Expense) :
    max_by_date l = none ↔ l = [] := by
  cases l with
  | nil => simp [max_by_date]
  | cons e rest =>
    simp only [max_by_date]
    cases max_by_date rest
    · simp
    · simp only [List.cons_ne_nil, iff_false]
      split <;> simp

theorem max_by_date_mem {l : List Expense} :
    ∀ {e : Expense}, max_by_date l = some e → e ∈ l := by
  induction l with
  | nil => intro e h; simp [max_by_date] at h
  | cons a rest ih =>
    intro e h
    simp only [max_by_date] at h
    cases hr : max_by_date rest with
    | none => rw [hr] at h; simp at h; simp [h]
    | some b =>
      rw [hr] at h
      by_cases hd : a.date < b.date
      · simp [hd] at h
        exact List.mem_cons_of_mem a (ih (h ▸ hr))
      · simp [hd] at h
        simp [h]

theorem max_by_date_is_max {l : List Expense} :
    ∀ {e : Expense}, max_by_date l = some e → ∀ a ∈ l, a.date ≤ e.date := by
  induction l with
  | nil => intro e _ a ha; simp at ha
  | cons a rest ih =>
    intro e h x hx
    simp only [max_by_date] at h
    cases hr : max_by_date rest with
    | none =>
      rw [hr] at h; simp at h
      have hnil : rest = [] := (max_by_date_eq_none_iff rest).mp hr
      subst hnil
      simp at hx
      simp [hx, h]
    | some b =>
      rw [hr] at h
      rcases List.mem_cons.mp hx with hxa | hxr
      · subst hxa
        by_cases hd : x.date < b.date
        · simp [hd] at h; exact le_of_lt (h ▸ hd)
        · simp [hd] at h; simp [h]
      · have hxb : x.date ≤ b.date := ih hr x hxr
        by_cases hd : a.date < b.date
        · simp [hd] at h; exact h ▸ hxb
        · simp [hd] at h
          exact le_trans hxb (h ▸ le_of_not_lt hd)

/-- Category lookup branch: no matching row, so a fresh account-owned row
with the default glyph is created. -/
theorem gocc_nil {name : String} {uid : Nat} {db : Db}
    (hl : db.categories.filter (cat_row_match name uid) = []) :
    get_or_create_category name uid db =
      .ok ({ id := db.next_id, name := name, emoji := "💰", user_id := some uid },
           { db with
             categories := db.categories ++
               [{ id := db.next_id, name := name, emoji := "💰", user_id := some uid }],
             next_id := db.next_id + 1 }) := by
  simp only [get_or_create_category, hl]
  rfl

/-- Category lookup branch: exactly one matching row, returned unchanged. -/
theorem gocc_single {name : String} {uid : Nat} {db : Db} {c : Category}
    (hl : db.categories.filter (cat_row_match name uid) = [c]) :
    get_or_create_category name uid db = .ok (c, db) := by
  simp only [get_or_create_category, hl]
  rfl

/-- Category lookup branch: two or more matching rows raise
`MultipleResultsFound`. -/
theorem gocc_multi {name : String} {uid : Nat} {db : Db} {a b : Category}
    {tl : List Category}
    (hl : db.categories.filter (cat_row_match name uid) = a :: b :: tl) :
    get_or_create_category name uid db = .error "MultipleResultsFound" := by
  simp only [get_or_create_category, hl]
  rfl

/-- Inversion for a successful category resolution: the store's other
tables are untouched and the returned row carries the requested name with
global or requesting-account ownership. -/
theorem gocc_inv {name : String} {uid : Nat} {db db1 : Db} {c : Category}
    (h : get_or_create_category name uid db = .ok (c, db1)) :
    db1.expenses = db.expenses ∧ db1.users = db.users ∧ db1.tokens = db.tokens ∧
    c.name = name ∧ (c.user_id = none ∨ c.user_id = some uid) := by
  cases hl : db.categories.filter (cat_row_match name uid) with
  | nil =>
    rw [gocc_nil hl] at h
    simp only [Except.ok.injEq, Prod.mk.injEq] at h
    obtain ⟨hc, hdb⟩ := h
    subst hdb
    simp [← hc]
  | cons a tl =>
    cases tl with
    | nil =>
      rw [gocc_single hl] at h
      simp only [Except.ok.injEq, Prod.mk.injEq] at h
      obtain ⟨hc, hdb⟩ := h
      subst hdb
      have ha : a ∈ db.categories.filter (cat_row_match name uid) := by
        simp [hl]
      have hm := (List.mem_filter.mp ha).2
      simp only [cat_row_match, Bool.and_eq_true, Bool.or_eq_true, beq_iff_eq] at hm
      refine ⟨rfl, rfl, rfl, hc ▸ hm.1, ?_⟩
      rcases hm.2 with h1 | h1
      · left; rw [← hc]; simpa using h1
      · right; rw [← hc]; simpa using h1
    | cons b tl2 =>
      rw [gocc_multi hl] at h
      simp at h

/-! ## Theorems -/

/-- C1: the persisted `Expense` is claimed to carry the content hash of the
submitted bytes, found again by the hash-based duplicate strategy — but the
ORM model `app/models/expense.py` declares no `file_hash` attribute at all,
while `save_expense` passes `file_hash=` to the `Expense` constructor (so
every save raises `TypeError`) and `find_duplicate_by_hash` filters on
`Expense.file_hash` (raising `AttributeError`); the repository's own test
`test_save_expense_stores_file_hash` asserts the stored field.  The
declarative constructor therefore rejects the very construction the claim
describes. -/
theorem expense_file_hash_column_missing :
    declarative_ctor_accepts expense_model_mapped_attrs save_expense_ctor_kwargs = false ∧
    expense_model_mapped_attrs.contains "file_hash" = false ∧
    save_expense_ctor_kwargs.contains "file_hash" = true := by decide

/-- Shared concrete fixtures for witnesses. -/
def wUser : User :=
  { id := 1, email := "ana@mail.com", name := "Ana", currency := "MXN",
    whatsapp_phone := none }

/-- Concrete candidate used by several witnesses. -/
def wParsed : ExpenseParsed :=
  { amount := 5000, currency := "MXN", description := "Cafe con leche",
    category_name := "Alimentación", date := some 1000000 }

/-- C2 counterexample: when both a global and an account-owned category row
match the same name, `get_or_create_category` raises `MultipleResultsFound`
(`scalar_one_or_none` over two rows) instead of returning the account-owned
row; resolution does have an error path. -/
theorem get_or_create_category_raises_on_double_match :
    get_or_create_category "Alimentación" 1
      { users := [],
        categories := [{ id := 10, name := "Alimentación", emoji := "🍔", user_id := none },
                       { id := 11, name := "Alimentación", emoji := "💰", user_id := some 1 }],
        expenses := [], tokens := [], next_id := 12 } =
      .error "MultipleResultsFound" := rfl

/-- C2 amended: whenever at most one row (global or account-owned) matches
the name, resolution succeeds with a row of that name visible to the
account — creating and persisting an account-owned row with the default
glyph when none matches — and a second call returns the very same row with
no further store change (idempotence).  When both a global and an
account-owned row match, the lookup raises `MultipleResultsFound` rather
than preferring the account-owned row. -/
theorem get_or_create_category_resolves_when_unambiguous
    (name : String) (uid : Nat) (db : Db)
    (h : (db.categories.filter (cat_row_match name uid)).length ≤ 1) :
    ∃ c db2, get_or_create_category name uid db = .ok (c, db2) ∧
      c.name = name ∧ (c.user_id = none ∨ c.user_id = some uid) ∧
      (db.categories.filter (cat_row_match name uid) = [] →
        c.emoji = "💰" ∧ c.user_id = some uid ∧
        db2.categories = db.categories ++ [c]) ∧
      (∀ c0, db.categories.filter (cat_row_match name uid) = [c0] →
        c = c0 ∧ db2 = db) ∧
      get_or_create_category name uid db2 = .ok (c, db2) := by
  cases hl : db.categories.filter (cat_row_match name uid) with
  | nil =>
    refine ⟨{ id := db.next_id, name := name, emoji := "💰", user_id := some uid },
            { db with
              categories := db.categories ++
                [{ id := db.next_id, name := name, emoji := "💰", user_id := some uid }],
              next_id := db.next_id + 1 },
            gocc_nil hl, rfl, Or.inr rfl, fun _ => ⟨rfl, rfl, rfl⟩, ?_, ?_⟩
    · intro c0 hc0
      exact List.noConfusion hc0
    · have hmatch : cat_row_match name uid
          { id := db.next_id, name := name, emoji := "💰", user_id := some uid } = true := by
        simp [cat_row_match]
      refine gocc_single ?_
      rw [List.filter_append, hl]
      simp [hmatch]
  | cons a tl =>
    cases tl with
    | nil =>
      have hgo := gocc_single hl
      have hinv := gocc_inv hgo
      refine ⟨a, db, hgo, hinv.2.2.2.1, hinv.2.2.2.2, ?_, ?_, hgo⟩
      · intro hnil; exact List.noConfusion hnil
      · intro c0 hc0
        have : a = c0 := by injection hc0
        exact ⟨this, rfl⟩
    | cons b tl2 => rw [hl] at h; simp at h

/-- C2 amended, witness: resolving a fresh name against a store holding
only the global seed row for a different name creates the private row and
is idempotent. -/
theorem get_or_create_category_resolves_when_unambiguous_witness :
    ∃ c db2, get_or_create_category "Viajes" 1
      { users := [wUser],
        categories := [{ id := 10, name := "Otros", emoji := "💰", user_id := none }],
        expenses := [], tokens := [], next_id := 11 } = .ok (c, db2) ∧
      c.name = "Viajes" ∧ (c.user_id = none ∨ c.user_id = some 1) ∧
      (List.filter (cat_row_match "Viajes" 1)
        ({ users := [wUser],
           categories := [{ id := 10, name := "Otros", emoji := "💰", user_id := none }],
           expenses := [], tokens := [], next_id := 11 } : Db).categories = [] →
        c.emoji = "💰" ∧ c.user_id = some 1 ∧
        db2.categories =
          ({ users := [wUser],
             categories := [{ id := 10, name := "Otros", emoji := "💰", user_id := none }],
             expenses := [], tokens := [], next_id := 11 } : Db).categories ++ [c]) ∧
      (∀ c0, List.filter (cat_row_match "Viajes" 1)
        ({ users := [wUser],
           categories := [{ id := 10, name := "Otros", emoji := "💰", user_id := none }],
           expenses := [], tokens := [], next_id := 11 } : Db).categories = [c0] →
        c = c0 ∧ db2 =
          { users := [wUser],
            categories := [{ id := 10, name := "Otros", emoji := "💰", user_id := none }],
            expenses := [], tokens := [], next_id := 11 }) ∧
      get_or_create_category "Viajes" 1 db2 = .ok (c, db2) :=
  get_or_create_category_resolves_when_unambiguous "Viajes" 1
    { users := [wUser],
      categories := [{ id := 10, name := "Otros", emoji := "💰", user_id := none }],
      expenses := [], tokens := [], next_id := 11 } (by decide)

/-- Every execution of the real `save_expense` raises: AttributeError in
the hash strategy, MultipleResultsFound in category resolution, or — on
every path that gets that far — the TypeError from the `Expense`
constructor, whose kwargs include the unmapped `file_hash`. -/
theorem save_expense_py_isOk_false (parsed : ExpenseParsed) (user : User)
    (source raw : String) (db : Db) (fh : Option String) (now : Int) :
    (save_expense_py parsed user source raw db fh now).isOk = false := by
  unfold save_expense_py
  by_cases ht : py_truthy_str fh = true
  · simp only [ht, if_true]
    rfl
  · have ht' : py_truthy_str fh = false := by simpa using ht
    simp only [ht', Bool.false_eq_true, if_false]
    cases hcat : get_or_create_category parsed.category_name user.id db with
    | error e => rfl
    | ok cdb =>
      obtain ⟨c, db1⟩ := cdb
      rfl

/-- C3 (code_bug): the claim's "hash lookup runs first" holds only in the
sense that, whenever a content hash is supplied, the hash strategy is the
place where the call dies — building its WHERE clause evaluates the
undeclared `Expense.file_hash` and raises `AttributeError`, so the hash
strategy can never return a match, no stored row ever carries a hash, and
no short-circuit into the fingerprint strategy is ever exercised. -/
theorem hash_strategy_raises_attribute_error
    (parsed : ExpenseParsed) (user : User) (source raw : String) (db : Db)
    (h : String) (now : Int) (hne : h ≠ "") :
    find_duplicate_by_hash_py h user.id db =
      .error "AttributeError: file_hash" ∧
    save_expense_py parsed user source raw db (some h) now =
      .error "AttributeError: file_hash" := by
  have hb : (h == "") = false := beq_eq_false_iff_ne.mpr hne
  constructor
  · rfl
  · simp only [save_expense_py, py_truthy_str, hb, Bool.not_false, if_true]
    rfl

/-- C3 witness: supplying the concrete hash "abc" over a one-user store
raises in the hash strategy before any other query runs. -/
theorem hash_strategy_raises_attribute_error_witness :
    find_duplicate_by_hash_py "abc" wUser.id
      { users := [wUser], categories := [], expenses := [], tokens := [],
        next_id := 1 } = .error "AttributeError: file_hash" ∧
    save_expense_py wParsed wUser "image" "imagen"
      { users := [wUser], categories := [], expenses := [], tokens := [],
        next_id := 1 } (some "abc") 0 = .error "AttributeError: file_hash" :=
  hash_strategy_raises_attribute_error wParsed wUser "image" "imagen"
    { users := [wUser], categories := [], expenses := [], tokens := [],
      next_id := 1 } "abc" 0 (by decide)

/-- C5 (code_bug): `save_expense` never persists anything — no call
returns a written record — and on the plain path the claim describes (no
hash supplied, category resolution unambiguous) the failure is precisely
the `TypeError` raised by the `Expense(...)` constructor, before any row is
added or committed. -/
theorem save_expense_never_persists
    (parsed : ExpenseParsed) (user : User) (source raw : String) (db : Db)
    (fh : Option String) (now : Int) :
    (save_expense_py parsed user source raw db fh now).isOk = false ∧
    (fh = none →
      (db.categories.filter (cat_row_match parsed.category_name user.id)).length ≤ 1 →
      save_expense_py parsed user source raw db fh now =
        .error "TypeError: file_hash is an invalid keyword argument for Expense") := by
  refine ⟨save_expense_py_isOk_false parsed user source raw db fh now, ?_⟩
  intro hfh hcat
  subst hfh
  have hda : declarative_ctor_accepts expense_model_mapped_attrs
      save_expense_ctor_kwargs = false := by decide
  cases hl : db.categories.filter (cat_row_match parsed.category_name user.id) with
  | nil =>
    simp only [save_expense_py, py_truthy_str, Bool.false_eq_true, if_false,
      gocc_nil hl, hda]
  | cons a tl =>
    cases tl with
    | nil =>
      simp only [save_expense_py, py_truthy_str, Bool.false_eq_true, if_false,
        gocc_single hl, hda]
    | cons b tl2 => rw [hl] at hcat; simp at hcat

/-- C5 witness: the concrete candidate against an empty store — the
claim's "no prior expenses" scenario — raises the constructor TypeError
instead of returning a written Expense and a none duplicate. -/
theorem save_expense_never_persists_witness :
    (save_expense_py wParsed wUser "text" "Cafe con leche 50"
      { users := [wUser], categories := [], expenses := [], tokens := [],
        next_id := 1 } none 0).isOk = false ∧
    save_expense_py wParsed wUser "text" "Cafe con leche 50"
      { users := [wUser], categories := [], expenses := [], tokens := [],
        next_id := 1 } none 0 =
      .error "TypeError: file_hash is an invalid keyword argument for Expense" :=
  ⟨(save_expense_never_persists wParsed wUser "text" "Cafe con leche 50"
      { users := [wUser], categories := [], expenses := [], tokens := [],
        next_id := 1 } none 0).1,
   (save_expense_never_persists wParsed wUser "text" "Cafe con leche 50"
      { users := [wUser], categories := [], expenses := [], tokens := [],
        next_id := 1 } none 0).2 rfl (by decide)⟩

/-- C10 (code_bug): the PDF batch loop dies inside its first
`save_expense` call (the constructor TypeError), so for every non-empty
extracted transaction list no `created` / `duplicates_count` result is ever
produced — the claimed sequential screening and duplicate counting are
never reached. -/
theorem upload_pdf_raises_on_first_save
    (user : User) (raw : String) (now : Int) (t : ExpenseParsed)
    (rest : List ExpenseParsed) (db : Db) :
    (upload_pdf_process_py user raw now (t :: rest) db).isOk = false := by
  simp only [upload_pdf_process_py]
  cases hsv : save_expense_py t user "pdf" raw db none now with
  | error e => rfl
  | ok r =>
    exfalso
    have hno := save_expense_py_isOk_false t user "pdf" raw db none now
    rw [hsv] at hno
    exact Bool.noConfusion (show true = false from hno)

/-- C4: the semantic-fingerprint strategy returns an existing expense of
the same account with the same amount and currency whose date lies in the
symmetric one-day window around the candidate's date (or now when the
candidate has none), maximal by date among all such matches; it returns
none exactly when no stored expense matches. -/
theorem find_duplicate_by_fingerprint_spec
    (parsed : ExpenseParsed) (uid : Nat) (db : Db) (now : Int) :
    (∀ e, find_duplicate_by_fingerprint parsed uid db now = some e →
      e ∈ db.expenses ∧ e.user_id = uid ∧ e.amount = parsed.amount ∧
      e.currency = parsed.currency ∧
      parsed.date.getD now - one_day ≤ e.date ∧
      e.date ≤ parsed.date.getD now + one_day ∧
      ∀ a ∈ db.expenses, fp_row_match parsed uid now a = true → a.date ≤ e.date) ∧
    (find_duplicate_by_fingerprint parsed uid db now = none ↔
      ∀ a ∈ db.expenses, fp_row_match parsed uid now a = false) := by
  constructor
  · intro e he
    have hmem := max_by_date_mem he
    have hmf := List.mem_filter.mp hmem
    have hp := hmf.2
    have hmax : ∀ a ∈ db.expenses, fp_row_match parsed uid now a = true →
        a.date ≤ e.date := by
      intro a ha hpa
      exact max_by_date_is_max he a (List.mem_filter.mpr ⟨ha, hpa⟩)
    simp only [fp_row_match, Bool.and_eq_true, beq_iff_eq, decide_eq_true_eq] at hp
    exact ⟨hmf.1, hp.1.1.1.1, hp.1.1.1.2, hp.1.1.2, hp.1.2, hp.2, hmax⟩
  · constructor
    · intro hnone a ha
      have hnil := (max_by_date_eq_none_iff _).mp hnone
      have := List.filter_eq_nil_iff.mp hnil a ha
      simpa using this
    · intro hall
      exact (max_by_date_eq_none_iff _).mpr
        (List.filter_eq_nil_iff.mpr (fun a ha => by simp [hall a ha]))

/-- C4 witness: with two stored matches at dates 1000100 and 1086000 the
strategy returns the later one, which carries the matching fields and is
maximal. -/
theorem find_duplicate_by_fingerprint_spec_witness :
    { id := 4, user_id := 1, amount := 5000, currency := "MXN",
      description := "Cafe 2", category_id := none, date := 1086000,
      source := "pdf", raw_input := some "pdf", file_hash := none : Expense } ∈
      ({ users := [wUser], categories := [],
         expenses := [{ id := 3, user_id := 1, amount := 5000, currency := "MXN",
                        description := "Cafe 1", category_id := none, date := 1000100,
                        source := "text", raw_input := some "t", file_hash := none },
                      { id := 4, user_id := 1, amount := 5000, currency := "MXN",
                        description := "Cafe 2", category_id := none, date := 1086000,
                        source := "pdf", raw_input := some "pdf", file_hash := none }],
         tokens := [], next_id := 5 } : Db).expenses ∧
    ({ id := 4, user_id := 1, amount := 5000, currency := "MXN",
       description := "Cafe 2", category_id := none, date := 1086000,
       source := "pdf", raw_input := some "pdf", file_hash := none : Expense }).user_id = 1 ∧
    ({ id := 4, user_id := 1, amount := 5000, currency := "MXN",
       description := "Cafe 2", category_id := none, date := 1086000,
       source := "pdf", raw_input := some "pdf", file_hash := none : Expense }).amount = wParsed.amount ∧
    ({ id := 4, user_id := 1, amount := 5000, currency := "MXN",
       description := "Cafe 2", category_id := none, date := 1086000,
       source := "pdf", raw_input := some "pdf", file_hash := none : Expense }).currency = wParsed.currency ∧
    wParsed.date.getD 0 - one_day ≤
      ({ id := 4, user_id := 1, amount := 5000, currency := "MXN",
         description := "Cafe 2", category_id := none, date := 1086000,
         source := "pdf", raw_input := some "pdf", file_hash := none : Expense }).date ∧
    ({ id := 4, user_id := 1, amount := 5000, currency := "MXN",
       description := "Cafe 2", category_id := none, date := 1086000,
       source := "pdf", raw_input := some "pdf", file_hash := none : Expense }).date ≤
      wParsed.date.getD 0 + one_day ∧
    ∀ a ∈ ({ users := [wUser], categories := [],
             expenses := [{ id := 3, user_id := 1, amount := 5000, currency := "MXN",
                            description := "Cafe 1", category_id := none, date := 1000100,
                            source := "text", raw_input := some "t", file_hash := none },
                          { id := 4, user_id := 1, amount := 5000, currency := "MXN",
                            description := "Cafe 2", category_id := none, date := 1086000,
                            source := "pdf", raw_input := some "pdf", file_hash := none }],
             tokens := [], next_id := 5 } : Db).expenses,
      fp_row_match wParsed 1 0 a = true →
      a.date ≤ ({ id := 4, user_id := 1, amount := 5000, currency := "MXN",
                  description := "Cafe 2", category_id := none, date := 1086000,
                  source := "pdf", raw_input := some "pdf", file_hash := none : Expense }).date :=
  (find_duplicate_by_fingerprint_spec wParsed 1
    { users := [wUser], categories := [],
      expenses := [{ id := 3, user_id := 1, amount := 5000, currency := "MXN",
                     description := "Cafe 1", category_id := none, date := 1000100,
                     source := "text", raw_input := some "t", file_hash := none },
                   { id := 4, user_id := 1, amount := 5000, currency := "MXN",
                     description := "Cafe 2", category_id := none, date := 1086000,
                     source := "pdf", raw_input := some "pdf", file_hash := none }],
      tokens := [], next_id := 5 } 0).1 _ (by decide)

/-- Invalidating a user's tokens leaves no unused token of that user among
the mapped rows. -/
theorem invalidate_filter_nil (uid : Nat) (l : List WhatsAppLinkToken) :
    (l.map (fun t => if t.user_id == uid && t.used == false
       then { t with used := true } else t)).filter
      (fun t => t.user_id == uid && t.used == false) = [] := by
  induction l with
  | nil => rfl
  | cons a rest ih =>
    simp only [List.map_cons, List.filter_cons]
    by_cases hc : (a.user_id == uid && a.used == false) = true
    · rw [if_pos hc]
      simpa using ih
    · rw [if_neg hc]
      rw [Bool.not_eq_true] at hc
      simp only [hc, ih]
      rfl

/-- Invalidating one user's tokens does not change another user's rows as
seen by the unused-token filter. -/
theorem invalidate_filter_other (uid uid2 : Nat) (h : uid2 ≠ uid)
    (l : List WhatsAppLinkToken) :
    (l.map (fun t => if t.user_id == uid && t.used == false
       then { t with used := true } else t)).filter
      (fun t => t.user_id == uid2 && t.used == false) =
    l.filter (fun t => t.user_id == uid2 && t.used == false) := by
  induction l with
  | nil => rfl
  | cons a rest ih =>
    simp only [List.map_cons, List.filter_cons]
    by_cases hc : (a.user_id == uid && a.used == false) = true
    · rw [if_pos hc]
      have hau : a.user_id = uid := by
        have := (Bool.and_eq_true _ _).mp hc
        exact beq_iff_eq.mp this.1
      have h2 : (a.user_id == uid2) = false := by
        simp [hau]
        exact fun habs => h habs.symm
      simp only [h2, Bool.false_and, ih]
      simp
    · rw [if_neg hc]
      simp only [ih]

/-- C7: issuing a link PIN marks every prior unused token of the account as
used before inserting the fresh token, so the account's unused tokens
afterwards are exactly the fresh one, other accounts' unused tokens are
untouched, and any still-unused token of the account is the fresh one (a
stale code can never satisfy the redemption filter again). -/
theorem generate_link_pin_invalidates_prior (db : Db) (uid : Nat)
    (pin : String) (now : Int) :
    ((generate_link_pin uid pin now db).2.tokens.filter
       (fun t => t.user_id == uid && t.used == false)) =
      [fresh_token uid pin now db] ∧
    (∀ uid2, uid2 ≠ uid →
      ((generate_link_pin uid pin now db).2.tokens.filter
        (fun t => t.user_id == uid2 && t.used == false)) =
      db.tokens.filter (fun t => t.user_id == uid2 && t.used == false)) ∧
    (∀ t ∈ (generate_link_pin uid pin now db).2.tokens,
      t.user_id = uid → t.used = false → t = fresh_token uid pin now db) := by
  refine ⟨?_, ?_, ?_⟩
  · show ((db.tokens.map _ ++ [_]).filter _) = _
    rw [List.filter_append, invalidate_filter_nil]
    simp [fresh_token]
  · intro uid2 hne
    have hne2 : (uid == uid2) = false := by
      simp
      exact fun habs => hne habs.symm
    show ((db.tokens.map _ ++ [_]).filter _) = _
    rw [List.filter_append, invalidate_filter_other uid uid2 hne]
    simp [fresh_token, hne2]
  · intro t ht htu htf
    rcases List.mem_append.mp ht with hml | hfr
    · obtain ⟨a, ha, hfa⟩ := List.mem_map.mp hml
      by_cases hc : (a.user_id == uid && a.used == false) = true
      · rw [if_pos hc] at hfa
        rw [← hfa] at htf
        simp at htf
      · rw [if_neg hc] at hfa
        subst hfa
        exact absurd (by simp [htu, htf]) hc
    · simpa using hfr

/-- C7 witness: issuing a PIN for account 1 over a store where accounts 1
and 2 each hold an unused token leaves account 1 with exactly the fresh
token and account 2's token untouched. -/
theorem generate_link_pin_invalidates_prior_witness :
    ((generate_link_pin 1 "654321" 0
        { users := [], categories := [], expenses := [],
          tokens := [{ id := 1, user_id := 1, token := "111111", expires_at := 1000, used := false },
                     { id := 2, user_id := 2, token := "222222", expires_at := 1000, used := false }],
          next_id := 3 }).2.tokens.filter
       (fun t => t.user_id == 1 && t.used == false)) =
      [fresh_token 1 "654321" 0
        { users := [], categories := [], expenses := [],
          tokens := [{ id := 1, user_id := 1, token := "111111", expires_at := 1000, used := false },
                     { id := 2, user_id := 2, token := "222222", expires_at := 1000, used := false }],
          next_id := 3 }] ∧
    ((generate_link_pin 1 "654321" 0
        { users := [], categories := [], expenses := [],
          tokens := [{ id := 1, user_id := 1, token := "111111", expires_at := 1000, used := false },
                     { id := 2, user_id := 2, token := "222222", expires_at := 1000, used := false }],
          next_id := 3 }).2.tokens.filter
       (fun t => t.user_id == 2 && t.used == false)) =
      ({ users := [], categories := [], expenses := [],
         tokens := [{ id := 1, user_id := 1, token := "111111", expires_at := 1000, used := false },
                    { id := 2, user_id := 2, token := "222222", expires_at := 1000, used := false }],
         next_id := 3 } : Db).tokens.filter
        (fun t => t.user_id == 2 && t.used == false) :=
  ⟨(generate_link_pin_invalidates_prior
      { users := [], categories := [], expenses := [],
        tokens := [{ id := 1, user_id := 1, token := "111111", expires_at := 1000, used := false },
                   { id := 2, user_id := 2, token := "222222", expires_at := 1000, used := false }],
        next_id := 3 } 1 "654321" 0).1,
   (generate_link_pin_invalidates_prior
      { users := [], categories := [], expenses := [],
        tokens := [{ id := 1, user_id := 1, token := "111111", expires_at := 1000, used := false },
                   { id := 2, user_id := 2, token := "222222", expires_at := 1000, used := false }],
        next_id := 3 } 1 "654321" 0).2.1 2 (by decide)⟩

/-- Binding a phone to the token's account updates exactly the row that
`find?` located. -/
theorem find?_map_bind_phone (users : List User) (tid : Nat) (phone : String)
    (u : User) (h : users.find? (fun v => v.id == tid) = some u) :
    (users.map (fun v => if v.id == tid
       then { v with whatsapp_phone := some phone } else v)).find?
      (fun v => v.id == tid) = some { u with whatsapp_phone := some phone } := by
  induction users with
  | nil => simp at h
  | cons a rest ih =>
    by_cases ha : (a.id == tid) = true
    · simp only [List.find?, ha] at h
      have hau : a = u := by injection h
      subst hau
      simp only [List.map_cons, if_pos ha, List.find?]
      simp [ha]
    · have ha' : (a.id == tid) = false := by simpa using ha
      simp only [List.find?, ha'] at h
      simp only [List.map_cons, if_neg ha, List.find?]
      simp only [ha']
      exact ih h

/-- C6: a six-digit message matching the unique live token binds the chat
identity to the token's account and permanently marks the token used; in
the resulting store no token matches that code any more, so a second
redemption with the same code replies with the invalid/expired-PIN text and
changes nothing; and in any store where no unused, unexpired token carries
the code (in particular after expiry), redemption replies with the
invalid/expired-PIN text and leaves the store unchanged. -/
theorem handle_unlinked_redeems_exactly_once
    (db : Db) (phone code : String) (now now2 : Int)
    (tk : WhatsAppLinkToken) (u : User)
    (hpin : is_six_digit_pin code = true)
    (hmatch : db.tokens.filter (token_matches code now) = [tk])
    (huser : db.users.find? (fun v => v.id == tk.user_id) = some u)
    (hle : now ≤ now2) :
    ∃ db2,
      handle_unlinked phone code db now = .ok (format_link_ok u.name, db2) ∧
      db2.users.find? (fun v => v.id == tk.user_id) =
        some { u with whatsapp_phone := some phone } ∧
      db2.tokens.filter (token_matches code now2) = [] ∧
      handle_unlinked phone code db2 now2 = .ok (format_pin_expired, db2) ∧
      (∀ (db0 : Db) (now0 : Int),
        db0.tokens.filter (token_matches code now0) = [] →
        handle_unlinked phone code db0 now0 = .ok (format_pin_expired, db0)) := by
  have hgen : ∀ (db0 : Db) (now0 : Int),
      db0.tokens.filter (token_matches code now0) = [] →
      handle_unlinked phone code db0 now0 = .ok (format_pin_expired, db0) := by
    intro db0 now0 h0
    simp only [handle_unlinked, hpin, if_true, h0, scalar_one_or_none]
  have htk_mem : tk ∈ db.tokens := by
    have : tk ∈ db.tokens.filter (token_matches code now) := by
      rw [hmatch]; exact List.mem_singleton_self tk
    exact (List.mem_filter.mp this).1
  refine ⟨{ db with
            users := db.users.map (fun v =>
              if v.id == tk.user_id then { v with whatsapp_phone := some phone }
              else v),
            tokens := db.tokens.map (fun s =>
              if s.id == tk.id then { s with used := true } else s) },
          ?_, ?_, ?_, ?_, hgen⟩
  · simp only [handle_unlinked, hpin, if_true, hmatch, scalar_one_or_none, huser]
  · exact find?_map_bind_phone db.users tk.user_id phone u huser
  · refine List.filter_eq_nil_iff.mpr ?_
    intro t' ht'
    obtain ⟨t, ht, hft⟩ := List.mem_map.mp ht'
    by_cases hid : (t.id == tk.id) = true
    · rw [if_pos hid] at hft
      rw [← hft]
      simp [token_matches]
    · rw [if_neg hid] at hft
      subst hft
      intro habs
      have habs' : token_matches code now t = true := by
        simp only [token_matches, Bool.and_eq_true, decide_eq_true_eq] at habs ⊢
        exact ⟨habs.1, lt_of_le_of_lt hle habs.2⟩
      have : t ∈ db.tokens.filter (token_matches code now) :=
        List.mem_filter.mpr ⟨ht, habs'⟩
      rw [hmatch] at this
      have : t = tk := by simpa using this
      exact hid (by simp [this])
  · apply hgen
    refine List.filter_eq_nil_iff.mpr ?_
    intro t' ht'
    obtain ⟨t, ht, hft⟩ := List.mem_map.mp ht'
    by_cases hid : (t.id == tk.id) = true
    · rw [if_pos hid] at hft
      rw [← hft]
      simp [token_matches]
    · rw [if_neg hid] at hft
      subst hft
      intro habs
      have habs' : token_matches code now t = true := by
        simp only [token_matches, Bool.and_eq_true, decide_eq_true_eq] at habs ⊢
        exact ⟨habs.1, lt_of_le_of_lt hle habs.2⟩
      have : t ∈ db.tokens.filter (token_matches code now) :=
        List.mem_filter.mpr ⟨ht, habs'⟩
      rw [hmatch] at this
      have : t = tk := by simpa using this
      exact hid (by simp [this])

/-- C6 witness: the token "123456" of account 1 redeems once — binding the
phone and marking the token used — and a second attempt with the same code
replies with the invalid/expired-PIN text without changing the store. -/
theorem handle_unlinked_redeems_exactly_once_witness :
    ∃ db2,
      handle_unlinked "5215550001" "123456"
        { users := [wUser], categories := [], expenses := [],
          tokens := [{ id := 2, user_id := 1, token := "123456",
                       expires_at := 1000, used := false }],
          next_id := 3 } 0 = .ok (format_link_ok wUser.name, db2) ∧
      db2.users.find? (fun v => v.id == (1 : Nat)) =
        some { wUser with whatsapp_phone := some "5215550001" } ∧
      db2.tokens.filter (token_matches "123456" 5) = [] ∧
      handle_unlinked "5215550001" "123456" db2 5 =
        .ok (format_pin_expired, db2) ∧
      (∀ (db0 : Db) (now0 : Int),
        db0.tokens.filter (token_matches "123456" now0) = [] →
        handle_unlinked "5215550001" "123456" db0 now0 =
          .ok (format_pin_expired, db0)) :=
  handle_unlinked_redeems_exactly_once
    { users := [wUser], categories := [], expenses := [],
      tokens := [{ id := 2, user_id := 1, token := "123456",
                   expires_at := 1000, used := false }],
      next_id := 3 } "5215550001" "123456" 0 5
    { id := 2, user_id := 1, token := "123456", expires_at := 1000, used := false }
    wUser (by decide) (by decide) (by decide) (by decide)

/-- C8: the linked-path webhook wraps `_handle_linked` in a top-level
exception handler: whenever processing raises, the reply is exactly the
generic apologetic message (with the uncommitted store state discarded),
and whenever processing succeeds its reply is forwarded — in every case the
sender gets a reply and no exception escapes the webhook. -/
theorem whatsapp_webhook_linked_total
    (user : User) (body : String) (num_media : Nat)
    (media_url media_content_type : Option String) (fx : LinkedEffects)
    (db : Db) (now month_start : Int) :
    (∀ err,
      handle_linked user body num_media media_url media_content_type fx db
        now month_start = .error err →
      whatsapp_webhook_linked user body num_media media_url media_content_type
        fx db now month_start = (generic_error_reply, db)) ∧
    (∀ reply db2,
      handle_linked user body num_media media_url media_content_type fx db
        now month_start = .ok (reply, db2) →
      whatsapp_webhook_linked user body num_media media_url media_content_type
        fx db now month_start = (reply, db2)) := by
  constructor
  · intro err h
    simp [whatsapp_webhook_linked, h]
  · intro reply db2 h
    simp [whatsapp_webhook_linked, h]

/-- Concrete candidate whose category "Comida" is ambiguous in `wDbDupCat`. -/
def wComida : ExpenseParsed :=
  { amount := 5000, currency := "MXN", description := "Cafe",
    category_name := "Comida", date := some 0 }

/-- Concrete effect results: the text extractor yields `wComida`. -/
def wFx : LinkedEffects :=
  { download_media := .ok "", analyze_receipt := none, transcribe := none,
    parse_text := fun _ => some wComida, parse_pdf := [],
    sha256 := fun _ => "" }

/-- Concrete store where two category rows (one global, one owned by
account 1) share the name "Comida". -/
def wDbDupCat : Db :=
  { users := [wUser],
    categories := [{ id := 1, name := "Comida", emoji := "🍔", user_id := none },
                   { id := 2, name := "Comida", emoji := "💰", user_id := some 1 }],
    expenses := [], tokens := [], next_id := 3 }

/-- C8 witness: a free-text expense whose category resolution raises
`MultipleResultsFound` (two category rows match) still produces the exact
generic apologetic reply instead of propagating the exception. -/
theorem whatsapp_webhook_linked_total_witness :
    whatsapp_webhook_linked wUser "cafe 50" 0 none none wFx wDbDupCat 0 0 =
      (generic_error_reply, wDbDupCat) :=
  (whatsapp_webhook_linked_total wUser "cafe 50" 0 none none wFx
    wDbDupCat 0 0).1 "MultipleResultsFound" rfl

/-- C9 counterexample: an extractor answer whose `category_name` is the
out-of-catalog "Astrología" is NOT treated as "Otros": the candidate keeps
the verbatim name (the `"Otros"` default applies only to a missing field),
and category resolution then mints a brand-new account-owned "Astrología"
row instead of using "Otros". -/
theorem parse_out_of_catalog_not_otros :
    (parse_expense_from_text
        { error := none, amount := some 10000, currency := some "MXN",
          description := some "Consulta astral",
          category_name := some "Astrología", date := none } 0).map
      (fun p => p.category_name) = some "Astrología" ∧
    CATEGORIES.contains "Astrología" = false ∧
    get_or_create_category "Astrología" 7
        { users := [], categories := [{ id := 1, name := "Otros", emoji := "💰", user_id := none }],
          expenses := [], tokens := [], next_id := 2 } =
      .ok ({ id := 2, name := "Astrología", emoji := "💰", user_id := some 7 },
           { users := [],
             categories := [{ id := 1, name := "Otros", emoji := "💰", user_id := none },
                            { id := 2, name := "Astrología", emoji := "💰", user_id := some 7 }],
             expenses := [], tokens := [], next_id := 3 }) := by
  refine ⟨by decide, by decide, rfl⟩

/-- C9 amended: an out-of-catalog category name is not *rejected* — the
candidate is still produced — but it is kept verbatim rather than mapped to
"Otros"; only a missing `category_name` field defaults to "Otros". -/
theorem parse_category_name_passthrough (data : AiData) (today : Int) :
    (∀ p, parse_expense_from_text data today = some p →
      p.category_name = data.category_name.getD "Otros") ∧
    (data.error = none → data.amount.isSome → data.description.isSome →
      (parse_expense_from_text data today).isSome) := by
  constructor
  · intro p hp
    unfold parse_expense_from_text at hp
    by_cases herr : data.error.isSome
    · simp [herr] at hp
    · simp [herr] at hp
      rcases hamt : data.amount with _ | amt
      · simp [hamt] at hp
      · rcases hdesc : data.description with _ | desc
        · simp [hamt, hdesc] at hp
        · simp [hamt, hdesc] at hp
          simp [← hp]
  · intro herr hamt hdesc
    unfold parse_expense_from_text
    rcases hamt' : data.amount with _ | amt
    · rw [hamt'] at hamt; simp at hamt
    · rcases hdesc' : data.description with _ | desc
      · rw [hdesc'] at hdesc; simp at hdesc
      · simp [herr, hamt', hdesc']

/-- C9 amended, witness: the out-of-catalog answer above is accepted and
carries its verbatim name. -/
theorem parse_category_name_passthrough_witness :
    (∀ p, parse_expense_from_text
        { error := none, amount := some 10000, currency := some "MXN",
          description := some "Consulta astral",
          category_name := some "Astrología", date := none } 0 = some p →
      p.category_name = (some "Astrología").getD "Otros") ∧
    (parse_expense_from_text
        { error := none, amount := some 10000, currency := some "MXN",
          description := some "Consulta astral",
          category_name := some "Astrología", date := none } 0).isSome := by
  have h := parse_category_name_passthrough
    { error := none, amount := some 10000, currency := some "MXN",
      description := some "Consulta astral",
      category_name := some "Astrología", date := none } 0
  exact ⟨h.1, h.2 rfl (by decide) (by decide)⟩

end Enquesefue
